import Mathlib

/-!
Verification development for the ca-migrate migration pipeline
(src/ca_migrate/migrator.py, src/ca_migrate/xml.py, src/ca_migrate/objects/xml.py).

The Python code is shallowly embedded: lxml element trees become the
inductive type El (namespaced tags such as soapenv:Body are modelled as
their prefixed string), exceptions become an explicit error type threaded
through Except or Option results, and the async pipeline becomes either a
pure page-list computation (for counting calls and ordering results) or a
small-step interleaving model (for the concurrency window).
-/

/-- Model of an lxml element: tag, attributes in document order, optional
text, and child elements in document order. -/
inductive El where
  | mk (tag : String) (attrs : List (String × String)) (text : Option String)
       (children : List El)
deriving Repr

def El.tag : El → String
  | .mk t _ _ _ => t

def El.attrs : El → List (String × String)
  | .mk _ a _ _ => a

def El.text : El → Option String
  | .mk _ _ x _ => x

def El.children : El → List El
  | .mk _ _ _ c => c

/-- Model of element.get(key, default): first attribute with the given
name, or the default. -/
def getAttr (key default : String) (e : El) : String :=
  match e.attrs.find? (fun p => p.1 = key) with
  | some p => p.2
  | none => default

/-- Model of element.get(key): first attribute with the given name, if any. -/
def getAttrOpt (key : String) (e : El) : Option String :=
  (e.attrs.find? (fun p => p.1 = key)).map Prod.snd

/-- Model of element.find(tag): first direct child with the given tag. -/
def findChild (tag : String) (e : El) : Option El :=
  e.children.find? (fun c => c.tag = tag)

mutual

/-- Descendant-or-self first match in one subtree, in document order: the
node itself is checked before its children. -/
def findInTree (tag : String) : El → Option El
  | .mk t a x ch => if t = tag then some (.mk t a x ch) else findInList tag ch

/-- Descendant-or-self first match over a list of sibling subtrees, in
document order: each subtree is fully searched before later siblings. -/
def findInList (tag : String) : List El → Option El
  | [] => none
  | c :: cs =>
    match findInTree tag c with
    | some r => some r
    | none => findInList tag cs

end

/-- Model of element.find(".//tag"): first strict descendant with the given
tag, in document order. -/
def findDesc (tag : String) (e : El) : Option El :=
  findInList tag e.children

mutual

/-- Descendant-or-self matches of one subtree, in document order. -/
def allInTree (tag : String) : El → List El
  | .mk t a x ch => (if t = tag then [El.mk t a x ch] else []) ++ allInList tag ch

/-- Descendant-or-self matches over sibling subtrees, in document order. -/
def allInList (tag : String) : List El → List El
  | [] => []
  | c :: cs => allInTree tag c ++ allInList tag cs

end

/-- Model of element.xpath(".//tag"): all strict descendants with the given
tag, in document order. -/
def descAll (tag : String) (e : El) : List El :=
  allInList tag e.children

/-- Model of element.findtext(tag, default): text of the first direct child
with the tag; the default only applies when no such child exists, and a
child with missing text yields the empty string, as in ElementTree. -/
def findTextD (tag default : String) (e : El) : String :=
  match findChild tag e with
  | some c => c.text.getD ""
  | none => default

/-- Model of element.findtext(".//tag") with no default: text of the first
matching strict descendant, if any (empty string when the element exists
but carries no text). -/
def findTextDescOpt (tag : String) (e : El) : Option String :=
  (findDesc tag e).map (fun c => c.text.getD "")

/-- Digit-and-underscore tail of a Python integer literal: digits with
single underscores strictly between digits. -/
def pyDigitTail : List Char → Bool
  | [] => true
  | c :: cs =>
    if c.isDigit then pyDigitTail cs
    else if c = '_' then
      match cs with
      | [] => false
      | d :: ds => d.isDigit && pyDigitTail ds
    else false

/-- Numeric value of a digit sequence, ignoring underscores. -/
def pyDigitsVal (l : List Char) : Nat :=
  l.foldl (fun acc c => if c.isDigit then acc * 10 + (c.toNat - '0'.toNat) else acc) 0

/-- Unsigned part of the model of Python int(str): nonempty, starts with a
digit, digits possibly grouped by single underscores. -/
def pyNatParse (l : List Char) : Option Nat :=
  match l with
  | [] => none
  | c :: cs => if c.isDigit && pyDigitTail cs then some (pyDigitsVal (c :: cs)) else none

/-- The ASCII whitespace characters int() strips from both ends. -/
def pyIsSpace (c : Char) : Bool :=
  c = ' ' || c = '\t' || c = '\n' || c = '\r' || c = '\x0b' || c = '\x0c'

/-- Strip whitespace from both ends of a character list. -/
def pyStrip (l : List Char) : List Char :=
  ((l.dropWhile pyIsSpace).reverse.dropWhile pyIsSpace).reverse

/-- Model of Python int(str): strip surrounding whitespace, optional sign,
then digits; none models the ValueError int raises on anything else. -/
def pyIntParse (s : String) : Option Int :=
  match pyStrip s.toList with
  | '+' :: rest => (pyNatParse rest).map Int.ofNat
  | '-' :: rest => (pyNatParse rest).map (fun n => -(n : Int))
  | rest => (pyNatParse rest).map Int.ofNat

/-- The exceptions the migrator can raise: XogFailureException (state
FAILURE with no ErrorInformation), XogException (classified failure with
severity and description), AuthException, and the built-in ValueError
raised by int() on a non-numeric Skip value. All protocol errors carry the
whole response document. -/
inductive PyError where
  | xogFailure (doc : El)
  | xog (severity description : String) (doc : El)
  | auth (doc : El)
  | valueError (s : String)

/-- Model of get_databus: the child at path ./soapenv:Body/NikuDataBus if
present, else the whole document. -/
def getDatabus (root : El) : El :=
  match ((root.children.filter (fun c => c.tag = "soapenv:Body")).flatMap
      (fun b => b.children.filter (fun c => c.tag = "NikuDataBus"))).head? with
  | some d => d
  | none => root

/-- Skip-extraction tail of try_error: the xpath ".//Skip/@value" values
under XOGOutput; absent means no cursor, a first value is parsed with
int(), which raises ValueError on a non-numeric string. -/
def readSkip (el xo : El) : Except PyError (El × Option Int) :=
  match (descAll "Skip" xo).filterMap (getAttrOpt "value") with
  | [] => .ok (getDatabus el, none)
  | v :: _ =>
    match pyIntParse v with
    | some n => .ok (getDatabus el, some n)
    | none => .error (.valueError v)

/-- Model of try_error: find XOGOutput anywhere in the document; if it has
a Status child whose state attribute (default "OK") is "FAILURE", raise
XogFailureException when ErrorInformation is absent, else XogException with
Severity (default "FATAL") and Description (default "Failed running XOG");
otherwise return the databus payload and the optional Skip cursor. -/
def try_error (el : El) : Except PyError (El × Option Int) :=
  match findDesc "XOGOutput" el with
  | none => .ok (getDatabus el, none)
  | some xo =>
    match findChild "Status" xo with
    | some status =>
      if getAttr "state" "OK" status = "FAILURE" then
        match findChild "ErrorInformation" xo with
        | none => .error (.xogFailure el)
        | some errInfo =>
          .error (.xog (findTextD "Severity" "FATAL" errInfo)
                       (findTextD "Description" "Failed running XOG" errInfo) el)
      else readSkip el xo
    | none => readSkip el xo

/-- Left-pad a number to two digits, as strftime "%m", "%d", "%H", "%M",
"%S" do. -/
def pad2 (n : Nat) : String :=
  if n < 10 then "0" ++ toString n else toString n

/-- Left-pad a year to four digits, as strftime "%Y" does. -/
def pad4 (n : Nat) : String :=
  if n < 10 then "000" ++ toString n
  else if n < 100 then "00" ++ toString n
  else if n < 1000 then "0" ++ toString n
  else toString n

/-- The kinds of values the Python serialize function can receive: the
supported scalars (bool, int, datetime, date, str) and a constructor for
every other runtime type, identified by its repr. -/
inductive PyValue where
  | vBool (b : Bool)
  | vInt (i : Int)
  | vDateTime (y mo d h mi s : Nat)
  | vDate (y mo d : Nat)
  | vStr (s : String)
  | vOther (typeName : String)
deriving Repr, DecidableEq

/-- Message of the TypeError serialize raises on an unsupported type. -/
def typeErrMsg (t : String) : String :=
  "Unexpected object of type " ++ t ++ ", expected str, int, bool or datetime"

/-- Model of xml.serialize: booleans render "1"/"0" for custom fields and
"true"/"false" otherwise, integers render decimal, datetimes render
strftime "%Y-%m-%dT%H:%M:%S", dates render strftime "%Y-%m-%d", strings
pass through, anything else raises TypeError. The bool cases come before
the int case and the datetime case before the date case, matching the
match order in the source. -/
def serialize (o : PyValue) (custom_field : Bool) : Except String String :=
  match o with
  | .vBool b =>
    if custom_field then .ok (if b then "1" else "0")
    else .ok (if b then "true" else "false")
  | .vInt i => .ok (toString i)
  | .vDateTime y mo d h mi s =>
    .ok (pad4 y ++ "-" ++ pad2 mo ++ "-" ++ pad2 d ++ "T"
          ++ pad2 h ++ ":" ++ pad2 mi ++ ":" ++ pad2 s)
  | .vDate y mo d => .ok (pad4 y ++ "-" ++ pad2 mo ++ "-" ++ pad2 d)
  | .vStr s => .ok s
  | .vOther t => .error (typeErrMsg t)

/-- Authentication and transport state of a Client: auth is the optional
session token (SessionIDAuth), transportClosed records whether the
underlying httpx AsyncClient has been exited. -/
structure ClientState where
  auth : Option String
  transportClosed : Bool
deriving Repr, DecidableEq

/-- Model of Client.login. The network exchange of run_xog is passed in as
its result. The source catches only XogException and re-raises it as
AuthException on the same document; any other error propagates unchanged.
On success it looks for a strict descendant xog:SessionID via findtext;
absence raises AuthException on the response, presence stores the token.
The returned pair is the auth state after the call and the exception, if
one was raised. -/
def clientLogin (auth0 : Option String)
    (runResult : Except PyError (El × Option Int)) :
    Option String × Option PyError :=
  match runResult with
  | .error (.xog _ _ doc) => (auth0, some (.auth doc))
  | .error e => (auth0, some e)
  | .ok (resp, _) =>
    match findTextDescOpt "xog:SessionID" resp with
    | none => (auth0, some (.auth resp))
    | some sid => (some sid, none)

/-- Model of Client.logout: a no-op when unauthenticated; otherwise the
result of the logout run_xog call is discarded on success and its
exception propagates on failure. -/
def clientLogout (auth0 : Option String)
    (runResult : Except PyError (El × Option Int)) : Option PyError :=
  match auth0 with
  | none => none
  | some _ =>
    match runResult with
    | .error e => some e
    | .ok _ => none

/-- Model of Client.__aexit__ as written in the source: first await
self.logout(), then await self.client.__aexit__(...). There is no
try/finally, so when logout raises, the transport exit never runs and the
exception propagates with transportClosed unchanged. -/
def clientAExit (s : ClientState)
    (logoutRun : Except PyError (El × Option Int)) :
    ClientState × Option PyError :=
  match clientLogout s.auth logoutRun with
  | some e => (s, some e)
  | none => ({ s with transportClosed := true }, none)

/-- The two query container classes of objects/xml.py, Query and
LookupQuery, which ContentPack groups its filters by. -/
inductive QKind where
  | query
  | lookupQuery
deriving Repr, DecidableEq

/-- Model of a XOG query Filter: column, criteria, values, custom flag. -/
structure XFilter where
  column : String
  criteria : String
  value : List PyValue
  custom_field : Bool
deriving Repr, DecidableEq

/-- Model of a DataBus query container (a QueryType instance): its class
and its list of filters. -/
structure QueryT where
  kind : QKind
  queries : List XFilter
deriving Repr, DecidableEq

/-- Model of DataBus.Header: object type, named args as an insertion
ordered dict, version and action defaults from the source. -/
structure DBHeader where
  object_type : String
  args : List (String × PyValue)
  version : String
  action : String
deriving Repr, DecidableEq

/-- Model of a DataBus request bundle. -/
structure DataBus where
  header : DBHeader
  query : List QueryT
deriving Repr, DecidableEq

/-- Model of ContentPack: its defaultdict from query class to the filters
collected for that class, in insertion order. -/
structure ContentPack where
  queries : List (QKind × List XFilter)
deriving Repr, DecidableEq

/-- Model of ContentPack.to_databus: an empty pack raises ValueError;
otherwise the whole pack becomes one single DataBus with object type
"contentPack" (header defaults version "8.0", action "read", no args)
whose query list rebuilds one QueryType per grouped class. -/
def ContentPack.to_databus (p : ContentPack) : Except String DataBus :=
  if p.queries.isEmpty then .error "Expected at least one content pack query"
  else .ok { header := { object_type := "contentPack", args := [],
                         version := "8.0", action := "read" },
             query := p.queries.map (fun q => { kind := q.1, queries := q.2 }) }

/-- Dict assignment args[k] = v: replace the value in place if the key
exists, else append the new entry, preserving insertion order. -/
def setArg : List (String × PyValue) → String → PyValue → List (String × PyValue)
  | [], k, v => [(k, v)]
  | (k0, v0) :: rest, k, v =>
    if k0 = k then (k0, v) :: rest else (k0, v0) :: setArg rest k v

/-- Dict lookup args.get(k). -/
def getArg (args : List (String × PyValue)) (k : String) : Option PyValue :=
  (args.find? (fun p => p.1 = k)).map Prod.snd

/-- Apply the optional transform_fn, identity when none. -/
def applyTransform (t : Option (El → El)) (e : El) : El :=
  match t with
  | some f => f e
  | none => e

/-- Model of the pagination loop shared by aiter_paginate and
_aiter_paginate_stream: each iteration performs one source run_xog call on
the current DataBus (the source is modelled as a function of the request
state, since the loop mutates header.args["skip"] between calls), applies
the transform, emits (page number, response), and continues with the skip
cursor written into the args while the call returns one. Page numbers
count from 1. The result is the emitted page list together with the
number of source calls made; none models running out of fuel, which can
only happen when no call in the prefix returns an absent cursor. -/
def paginateLoop (src : DataBus → El × Option Int) (t : Option (El → El)) :
    Nat → DataBus → Nat → Option (List (Nat × El) × Nat)
  | 0, _, _ => none
  | fuel + 1, db, pageNum =>
    match src db with
    | (resp, none) => some ([(pageNum, applyTransform t resp)], 1)
    | (resp, some k) =>
      match paginateLoop src t fuel
          { db with header := { db.header with
              args := setArg db.header.args "skip" (.vInt k) } } (pageNum + 1) with
      | none => none
      | some (rest, calls) => some ((pageNum, applyTransform t resp) :: rest, calls + 1)

/-- Model of the consumer loop in migrate: for each page received from the
stream it starts one destination run_xog task and appends the page to the
responses list, in emission order. Returns the number of destination
calls started and the ordered responses. -/
def consumePages (pages : List (Nat × El)) : Nat × List El :=
  pages.foldl (fun acc pr => (acc.1 + 1, acc.2 ++ [pr.2])) (0, [])

/-- Outcome of one migrate call: ordered responses, number of source
calls, number of destination calls started, and how many bundle
sub-pipelines were run. -/
structure MigrateResult where
  responses : List El
  srcCalls : Nat
  destCalls : Nat
  bundles : Nat
deriving Repr

/-- The Xoggable argument of migrate: a ContentPack, a DataBus, or any
other as_xml-capable value (which the source answers with
NotImplementedError). -/
inductive XContent where
  | pack (p : ContentPack)
  | databus (db : DataBus)
  | otherContent
deriving Repr

/-- Model of the DataBus branch of Xogger.migrate: run the pagination
producer to completion and the consumer over every emitted page. One
bundle sub-pipeline is run. The buffer argument does not change which
pages are produced or sent, only their interleaving, so it is unused by
this pure result model. -/
def migrateDataBus (src : DataBus → El × Option Int) (db : DataBus)
    (t : Option (El → El)) (fuel : Nat) : Option MigrateResult :=
  (paginateLoop src t fuel db 1).map (fun pc =>
    let dc := consumePages pc.1
    { responses := dc.2, srcCalls := pc.2, destCalls := dc.1, bundles := 1 })

/-- Model of Xogger.migrate. The auth pair carries src.auth and dest.auth;
either being absent fails the assertions before any network call. A
ContentPack is converted by to_databus to one single DataBus and the
source then re-enters migrate on it passing no transform_fn and the
default buffer of 3 (that recursive call is unfolded here: its assertions
re-check the same auth pair and its DataBus branch is the one below). Any
other content raises NotImplementedError. -/
def migrate (src : DataBus → El × Option Int)
    (srcAuth destAuth : Option String) (content : XContent)
    (t : Option (El → El)) (buffer : Nat) (fuel : Nat) :
    Option (Except String MigrateResult) :=
  if srcAuth = none then some (.error "src is not logged in. call src.login")
  else if destAuth = none then some (.error "dest is not logged in. call dest.login")
  else
    match content with
    | .pack p =>
      match ContentPack.to_databus p with
      | .error e => some (.error e)
      | .ok db =>
        match migrateDataBus src db none fuel with
        | none => none
        | some r => some (.ok r)
    | .databus db =>
      match migrateDataBus src db t fuel with
      | none => none
      | some r => some (.ok r)
    | .otherContent => some (.error "NotImplementedError")

/-- Per-claim reading of pack migration, modelled from the claim text: the
pack is normalized into one bundle per constituent object type, keeping
that type as the bundle object type marker, and each bundle is migrated
independently and sequentially. -/
def packToBundlesClaim (p : ContentPack) : List DataBus :=
  p.queries.map (fun q =>
    { header := { object_type := match q.1 with
                    | .query => "query"
                    | .lookupQuery => "lookupQuery",
                  args := [], version := "8.0", action := "read" },
      query := [{ kind := q.1, queries := q.2 }] })

/-- Per-claim reading of migrate on a pack: each per-type bundle runs its
own pagination sub-pipeline to completion, in sequence. -/
def migratePackClaim (src : DataBus → El × Option Int) (p : ContentPack)
    (t : Option (El → El)) (fuel : Nat) : Option (List MigrateResult) :=
  (packToBundlesClaim p).foldr
    (fun db acc => (migrateDataBus src db t fuel).bind (fun r => acc.map (r :: ·)))
    (some [])

/-- State of the producer/consumer pipeline inside the DataBus branch of
Xogger.migrate: pagesSent counts iterations of _aiter_paginate_stream that
completed their snd.send, producing is whether that loop is still running,
queued is how many sent pages sit in the memory object stream buffer,
inFlight counts dest.run_xog tasks started by the consumer and not yet
finished, received counts pages the consumer took from the stream. -/
structure PipeState where
  pagesSent : Nat
  producing : Bool
  queued : Nat
  inFlight : Nat
  received : Nat
deriving Repr, DecidableEq

/-- The three kinds of scheduler events in the migrate task group: one
producer iteration (source call plus send), one consumer iteration
(receive plus start_soon of a destination call), and the completion of an
in-flight destination call. -/
inductive PipeAct where
  | produce
  | consume
  | finishDest
deriving Repr, DecidableEq

/-- One step of the pipeline. A produce needs the producer loop alive, a
free slot in the stream buffer created with capacity buffer, and a source
page still to fetch out of total (the last of the total pages carries no
cursor, so the producer stops after sending it). A consume needs a queued
page; it starts one destination task without waiting for any earlier task.
A finishDest completes one in-flight destination call. The step is none
when the event is not enabled in the given state. -/
def pipeStep (buffer total : Nat) (s : PipeState) : PipeAct → Option PipeState
  | .produce =>
    if s.producing = true ∧ s.queued < buffer ∧ s.pagesSent < total then
      some { s with pagesSent := s.pagesSent + 1, queued := s.queued + 1,
                    producing := decide (s.pagesSent + 1 < total) }
    else none
  | .consume =>
    if 0 < s.queued then
      some { s with queued := s.queued - 1, received := s.received + 1,
                    inFlight := s.inFlight + 1 }
    else none
  | .finishDest =>
    if 0 < s.inFlight then some { s with inFlight := s.inFlight - 1 } else none

/-- Run a schedule of pipeline events from a state; none when some event
in the schedule is not enabled where it occurs. -/
def pipeRun (buffer total : Nat) : PipeState → List PipeAct → Option PipeState
  | s, [] => some s
  | s, a :: rest => (pipeStep buffer total s a).bind (fun s2 => pipeRun buffer total s2 rest)

/-- Initial pipeline state: nothing sent, producer running, empty stream,
no destination call started. -/
def pipeInit : PipeState :=
  { pagesSent := 0, producing := true, queued := 0, inFlight := 0, received := 0 }

/-- A sample page payload, standing for one parsed source response. -/
def pageEl (n : Nat) : El :=
  .mk "Page" [("n", toString n)] none []

/-- A minimal DataBus bundle used as concrete migrate input. -/
def db0 : DataBus :=
  { header := { object_type := "project", args := [], version := "8.0", action := "read" },
    query := [{ kind := .query, queries := [] }] }

/-- Source stub whose three successive calls return cursors 1, 2, none:
its answer is determined by the skip arg the loop wrote into the request
before the call, as in the spec test scenario. -/
def src3 (db : DataBus) : El × Option Int :=
  match getArg db.header.args "skip" with
  | none => (pageEl 1, some 1)
  | some (.vInt 1) => (pageEl 2, some 2)
  | some (.vInt 2) => (pageEl 3, none)
  | _ => (pageEl 99, none)

/-- Source stub whose very first call already returns no cursor. -/
def srcOne (_db : DataBus) : El × Option Int :=
  (pageEl 1, none)

/-- Filters for the two query classes of the sample pack. -/
def filtActive : XFilter :=
  { column := "active", criteria := "EQUALS", value := [.vBool true], custom_field := false }

def filtCode : XFilter :=
  { column := "code", criteria := "OR", value := [.vStr "l1"], custom_field := false }

/-- A pack spanning two constituent object types: one plain Query and one
LookupQuery. -/
def pack2 : ContentPack :=
  { queries := [(.query, [filtActive]), (.lookupQuery, [filtCode])] }

/-- The single DataBus that ContentPack.to_databus builds from pack2. -/
def packDb2 : DataBus :=
  { header := { object_type := "contentPack", args := [], version := "8.0", action := "read" },
    query := [{ kind := .query, queries := [filtActive] },
              { kind := .lookupQuery, queries := [filtCode] }] }

/-- Status element in FAILURE state. -/
def statusFail : El :=
  .mk "Status" [("state", "FAILURE")] none []

/-- Status element in OK state. -/
def statusOk : El :=
  .mk "Status" [("state", "OK")] none []

/-- ErrorInformation detail with severity WARN and description dup, the
example from the spec. -/
def errInfoWarnDup : El :=
  .mk "ErrorInformation" [] none
    [.mk "Severity" [] (some "WARN") [], .mk "Description" [] (some "dup") []]

/-- XOGOutput reporting an unexplained failure. -/
def xoFailBare : El :=
  .mk "XOGOutput" [] none [statusFail]

/-- XOGOutput reporting a classified failure. -/
def xoFailWarn : El :=
  .mk "XOGOutput" [] none [statusFail, errInfoWarnDup]

/-- Successful XOGOutput carrying a Skip cursor of 50. -/
def xoSkip50 : El :=
  .mk "XOGOutput" [] none [statusOk, .mk "Skip" [("value", "50")] none []]

/-- Successful XOGOutput carrying a non-numeric Skip value. -/
def xoSkipAbc : El :=
  .mk "XOGOutput" [] none [statusOk, .mk "Skip" [("value", "abc")] none []]

/-- Successful XOGOutput with no Skip element. -/
def xoNoSkip : El :=
  .mk "XOGOutput" [] none [statusOk]

def docFailBare : El := .mk "root" [] none [xoFailBare]

def docFailWarn : El := .mk "root" [] none [xoFailWarn]

def docSkip50 : El := .mk "root" [] none [xoSkip50]

def docSkipAbc : El := .mk "root" [] none [xoSkipAbc]

def docNoSkip : El := .mk "root" [] none [xoNoSkip]

/-- A response document containing no XOGOutput at all, such as a logout
acknowledgment. -/
def docPlain : El := .mk "root" [] none [.mk "Data" [] none []]

/-- C3: for every response document whose status element has state
FAILURE, classification with no error-detail element raises
XogFailureException carrying the whole document, and with an error-detail
element raises XogException whose severity is the Severity text of the
detail (default FATAL when the element is missing) and whose description
is its Description text (default "Failed running XOG" when missing),
carrying the whole document. -/
theorem try_error_failure_C3 (el xo status : El)
    (hxo : findDesc "XOGOutput" el = some xo)
    (hst : findChild "Status" xo = some status)
    (hfail : getAttr "state" "OK" status = "FAILURE") :
    (findChild "ErrorInformation" xo = none →
      try_error el = .error (.xogFailure el)) ∧
    (∀ errInfo, findChild "ErrorInformation" xo = some errInfo →
      try_error el = .error (.xog (findTextD "Severity" "FATAL" errInfo)
          (findTextD "Description" "Failed running XOG" errInfo) el)) := by
  constructor
  · intro hei
    simp [try_error, hxo, hst, hfail, hei]
  · intro errInfo hei
    simp [try_error, hxo, hst, hfail, hei]

/-- Witness for C3 on the spec example: a FAILURE response with severity
WARN and description dup raises XogException with exactly those fields,
and a bare FAILURE response raises XogFailureException. -/
theorem try_error_failure_C3_witness :
    try_error docFailWarn = .error (.xog "WARN" "dup" docFailWarn) ∧
    try_error docFailBare = .error (.xogFailure docFailBare) :=
  ⟨(try_error_failure_C3 docFailWarn xoFailWarn statusFail (by rfl) (by rfl) (by rfl)).2
      errInfoWarnDup (by rfl),
   (try_error_failure_C3 docFailBare xoFailBare statusFail (by rfl) (by rfl) (by rfl)).1 (by rfl)⟩

/-- Whether an XOGOutput element has a Status child whose state attribute
(default "OK") is FAILURE, the condition of the raising branch of
try_error. -/
def statusIsFailure (xo : El) : Bool :=
  match findChild "Status" xo with
  | some status => decide (getAttr "state" "OK" status = "FAILURE")
  | none => false

/-- C7: a response with no XOGOutput element anywhere classifies as
success with an absent cursor; a successful response (one whose status is
not in FAILURE state) whose first Skip value attribute is "50" yields the
integer cursor 50; and a successful response with no Skip value attribute
yields cursor none. -/
theorem try_error_cursor_C7 :
    (∀ el, findDesc "XOGOutput" el = none →
      try_error el = .ok (getDatabus el, none)) ∧
    (∀ el xo, findDesc "XOGOutput" el = some xo → statusIsFailure xo = false →
      ((descAll "Skip" xo).filterMap (getAttrOpt "value") = [] →
        try_error el = .ok (getDatabus el, none)) ∧
      (∀ rest, (descAll "Skip" xo).filterMap (getAttrOpt "value") = "50" :: rest →
        try_error el = .ok (getDatabus el, some 50))) := by
  constructor
  · intro el h
    simp [try_error, h]
  · intro el xo hxo hok
    have hread : try_error el = readSkip el xo := by
      simp only [try_error, hxo]
      revert hok
      unfold statusIsFailure
      cases findChild "Status" xo with
      | none => intro _; rfl
      | some status =>
        intro hok
        exact if_neg (of_decide_eq_false hok)
    have h50 : pyIntParse "50" = some 50 := by rfl
    constructor
    · intro hskip
      rw [hread]
      simp [readSkip, hskip]
    · intro rest hskip
      rw [hread]
      simp [readSkip, hskip, h50]

/-- Witness for C7: a logout-style document with no XOGOutput returns the
document itself and no cursor; the skip-50 document returns cursor 50; the
document without a Skip element returns cursor none. -/
theorem try_error_cursor_C7_witness :
    try_error docPlain = .ok (getDatabus docPlain, none) ∧
    try_error docSkip50 = .ok (getDatabus docSkip50, some 50) ∧
    try_error docNoSkip = .ok (getDatabus docNoSkip, none) :=
  ⟨try_error_cursor_C7.1 docPlain (by rfl),
   (try_error_cursor_C7.2 docSkip50 xoSkip50 (by rfl) (by rfl)).2 [] (by rfl),
   (try_error_cursor_C7.2 docNoSkip xoNoSkip (by rfl) (by rfl)).1 (by rfl)⟩

/-- C10: on a successful response whose Skip value attribute is the
non-numeric string "abc", classification raises the unguarded ValueError
of int() instead of returning a result or a typed protocol error: the
cursor extraction is not total. -/
theorem try_error_valueerror_C10 :
    try_error docSkipAbc = .error (.valueError "abc") := by rfl

/-- C6: serialize renders a boolean as "1"/"0" when custom_field is true
and as "true"/"false" otherwise, an integer in decimal, a date as
YYYY-MM-DD, a datetime as YYYY-MM-DDTHH:MM:SS, returns a string unchanged,
and raises TypeError for every other value type. -/
theorem serialize_C6 :
    (∀ b : Bool, serialize (.vBool b) true = .ok (if b then "1" else "0") ∧
      serialize (.vBool b) false = .ok (if b then "true" else "false")) ∧
    (∀ (i : Int) (cf : Bool), serialize (.vInt i) cf = .ok (toString i)) ∧
    (∀ (y mo d : Nat) (cf : Bool),
      serialize (.vDate y mo d) cf = .ok (pad4 y ++ "-" ++ pad2 mo ++ "-" ++ pad2 d)) ∧
    (∀ (y mo d h mi s : Nat) (cf : Bool),
      serialize (.vDateTime y mo d h mi s) cf
        = .ok (pad4 y ++ "-" ++ pad2 mo ++ "-" ++ pad2 d ++ "T"
                ++ pad2 h ++ ":" ++ pad2 mi ++ ":" ++ pad2 s)) ∧
    (∀ (s : String) (cf : Bool), serialize (.vStr s) cf = .ok s) ∧
    (∀ (t : String) (cf : Bool), serialize (.vOther t) cf = .error (typeErrMsg t)) := by
  refine ⟨fun b => ⟨rfl, rfl⟩, fun i cf => rfl, fun y mo d cf => rfl,
    fun y mo d h mi s cf => rfl, fun s cf => rfl, fun t cf => rfl⟩

/-- C4: a XogException raised by the run_xog call inside login is
re-raised as AuthException on the same document; an ok response with no
xog:SessionID descendant also raises AuthException, on the response; and
whenever login leaves with an exception, the authentication state is
unchanged, so a client that was unauthenticated stays unauthenticated. -/
theorem login_C4 (auth0 : Option String)
    (runResult : Except PyError (El × Option Int)) :
    (∀ sev desc doc, runResult = .error (.xog sev desc doc) →
      clientLogin auth0 runResult = (auth0, some (.auth doc))) ∧
    (∀ resp skip, runResult = .ok (resp, skip) →
      findTextDescOpt "xog:SessionID" resp = none →
      clientLogin auth0 runResult = (auth0, some (.auth resp))) ∧
    (auth0 = none → ∀ st e, clientLogin auth0 runResult = (st, some e) → st = none) := by
  refine ⟨?_, ?_, ?_⟩
  · intro sev desc doc h
    subst h
    rfl
  · intro resp skip h hsid
    subst h
    simp [clientLogin, hsid]
  · intro h0 st e h
    subst h0
    cases runResult with
    | error err =>
      cases err <;> simp [clientLogin] at h <;> exact h.1.symm
    | ok pr =>
      obtain ⟨resp, skip⟩ := pr
      cases hsid : findTextDescOpt "xog:SessionID" resp with
      | none => simp [clientLogin, hsid] at h; exact h.1.symm
      | some sid => simp [clientLogin, hsid] at h

/-- Witness for C4: with an unauthenticated client, a classified failure
during login surfaces as AuthException and leaves the state
unauthenticated, and so does an ok response without a session id. -/
theorem login_C4_witness :
    clientLogin none (.error (.xog "FATAL" "bad" docPlain)) = (none, some (.auth docPlain)) ∧
    clientLogin none (.ok (docPlain, none)) = (none, some (.auth docPlain)) :=
  ⟨(login_C4 none (.error (.xog "FATAL" "bad" docPlain))).1 "FATAL" "bad" docPlain rfl,
   (login_C4 none (.ok (docPlain, none))).2.1 docPlain none rfl (by rfl)⟩

/-- C2, code bug evidence: the source __aexit__ runs logout and then the
transport exit in sequence with no protecting finally, so when logout
raises (here: an authenticated client whose logout call fails with
XogFailureException) the exception propagates and the transport is never
closed, leaking it, contrary to the claim that the transport is closed on
every exit path. -/
theorem aexit_leaks_transport_C2 :
    clientAExit { auth := some "tok", transportClosed := false }
        (.error (.xogFailure docPlain))
      = ({ auth := some "tok", transportClosed := false }, some (.xogFailure docPlain)) ∧
    (clientAExit { auth := some "tok", transportClosed := false }
        (.error (.xogFailure docPlain))).1.transportClosed = false :=
  ⟨rfl, rfl⟩

/-- C5: with the source stub whose calls return cursors 1, 2, none,
migrate of a bundle makes exactly 3 source calls and starts exactly 3
destination calls, returning the three pages in emission order; and in
general one loop iteration whose call returns no cursor ends the loop with
that single page, so the loop always runs at least one source call even
when the very first call returns no cursor. -/
theorem migrate_pagination_C5 :
    migrate src3 (some "s") (some "d") (.databus db0) none 3 10
      = some (.ok { responses := [pageEl 1, pageEl 2, pageEl 3],
                    srcCalls := 3, destCalls := 3, bundles := 1 }) ∧
    (∀ (src : DataBus → El × Option Int) (t : Option (El → El)) (db : DataBus)
        (pageNum fuel : Nat) (resp : El),
      src db = (resp, none) →
      paginateLoop src t (fuel + 1) db pageNum
        = some ([(pageNum, applyTransform t resp)], 1)) := by
  constructor
  · rfl
  · intro src t db pageNum fuel resp h
    simp [paginateLoop, h]

/-- Witness for C5: a source whose very first call returns no cursor still
gets one source call and one emitted page. -/
theorem migrate_pagination_C5_witness :
    paginateLoop srcOne none 1 db0 1 = some ([(1, pageEl 1)], 1) :=
  migrate_pagination_C5.2 srcOne none db0 1 0 (pageEl 1) rfl

/-- C9: migrate on a ContentPack ignores the caller-supplied transform_fn
and buffer: for every transform and buffer it behaves exactly as the call
with no transform and the default buffer 3, and, when the pack converts to
a DataBus, exactly as migrating that DataBus with no transform and the
default buffer, so pack pages reach the destination untransformed. -/
theorem migrate_pack_discards_args_C9 (src : DataBus → El × Option Int)
    (srcAuth destAuth : Option String) (p : ContentPack)
    (t : Option (El → El)) (buffer fuel : Nat) :
    migrate src srcAuth destAuth (.pack p) t buffer fuel
      = migrate src srcAuth destAuth (.pack p) none 3 fuel ∧
    (∀ db, ContentPack.to_databus p = .ok db →
      migrate src srcAuth destAuth (.pack p) t buffer fuel
        = migrate src srcAuth destAuth (.databus db) none 3 fuel) := by
  constructor
  · cases srcAuth <;> cases destAuth <;> rfl
  · intro db h
    cases srcAuth <;> cases destAuth <;> simp [migrate, h]

/-- Witness for C9: migrating the sample pack with a constant transform
and buffer 9 equals migrating its databus with no transform and buffer 3. -/
theorem migrate_pack_discards_args_C9_witness :
    migrate srcOne (some "s") (some "d") (.pack pack2) (some (fun _ => pageEl 7)) 9 5
      = migrate srcOne (some "s") (some "d") (.databus packDb2) none 3 5 :=
  (migrate_pack_discards_args_C9 srcOne (some "s") (some "d") pack2
      (some (fun _ => pageEl 7)) 9 5).2 packDb2 (by rfl)

/-- C8 counterexample: on the pack spanning two constituent object types,
the code performs a single bundle sub-pipeline with one source call, while
migrating one bundle per object type as the claim states would perform two
source calls (the per-claim model is migratePackClaim); one sub-pipeline
is not two. -/
theorem migrate_pack_single_bundle_C8_cex :
    (migrate srcOne (some "s") (some "d") (.pack pack2) none 3 5).map
        (fun r => r.map MigrateResult.srcCalls) = some (.ok 1) ∧
    (migratePackClaim srcOne pack2 none 5).map
        (fun l => (l.map MigrateResult.srcCalls).sum) = some 2 ∧
    pack2.queries.length = 2 ∧ (1 : Nat) ≠ 2 := by
  refine ⟨rfl, rfl, rfl, by decide⟩

/-- C8 amended: a pack given to migrate is normalized by to_databus into
one single bundle whose object type is "contentPack" and whose query list
groups the pack filters by query class, and migrate then migrates that one
bundle, with no transform and the default buffer, running its pagination
sub-pipeline to completion. -/
theorem migrate_pack_amended_C8 (src : DataBus → El × Option Int)
    (srcAuth destAuth : Option String) (p : ContentPack) (db : DataBus)
    (t : Option (El → El)) (buffer fuel : Nat)
    (h : ContentPack.to_databus p = .ok db) :
    db.header.object_type = "contentPack" ∧
    db.query = p.queries.map (fun q => { kind := q.1, queries := q.2 }) ∧
    migrate src srcAuth destAuth (.pack p) t buffer fuel
      = migrate src srcAuth destAuth (.databus db) none 3 fuel := by
  have h2 := h
  unfold ContentPack.to_databus at h2
  by_cases hp : p.queries.isEmpty = true
  · simp [hp] at h2
  · simp [hp] at h2
    subst h2
    refine ⟨rfl, rfl, ?_⟩
    cases srcAuth <;> cases destAuth <;> simp [migrate, h]

/-- Witness for C8 amended, on the two-type sample pack. -/
theorem migrate_pack_amended_C8_witness :
    packDb2.header.object_type = "contentPack" ∧
    packDb2.query = pack2.queries.map (fun q => { kind := q.1, queries := q.2 }) ∧
    migrate srcOne (some "s") (some "d") (.pack pack2) (some (fun _ => pageEl 7)) 9 5
      = migrate srcOne (some "s") (some "d") (.databus packDb2) none 3 5 :=
  migrate_pack_amended_C8 srcOne (some "s") (some "d") pack2 packDb2
    (some (fun _ => pageEl 7)) 9 5 (by rfl)

/-- C1, code bug evidence: with the default buffer of 3 and a five page
source, the schedule that alternates producer iterations with consumer
iterations while no destination call completes reaches a state with 4
destination calls in flight, exceeding the claimed window of 3: the
consumer starts one dest.run_xog task per received page without awaiting
any of them, so the stream capacity bounds only the queued pages, not the
in-flight destination calls. -/
theorem migrate_window_exceeded_C1 :
    pipeRun 3 5 pipeInit
        [.produce, .consume, .produce, .consume,
         .produce, .consume, .produce, .consume]
      = some { pagesSent := 4, producing := true, queued := 0,
               inFlight := 4, received := 4 } ∧
    3 < 4 := by
  exact ⟨by decide, by decide⟩
